import Mathlib

/-!
Shallow embedding of the data-acquisition client (`acquisition/client.py`):
the acquisition (producer) loop, the processing (consumer) loop with inline
calibration detection, and the `Client` orchestrator's lifecycle operations
(`__init__`, `start_acquisition`, `stop_acquisition`, `get_data`,
`get_data_len`).

Modelling conventions:
* Python numbers are modelled by `ℚ` (true division is in effect via
  `from __future__ import division`); sample vectors are `List ℚ`.
* A Python attribute that may not have been assigned yet is an `Option`
  field whose `none` value means "attribute absent"; reading it then is an
  `AttributeError`.  `Client.__init__` never assigns `self._buf`, so the
  buffer field is `Option (Option BufferState)`: outer `none` = attribute
  absent, `some none` = attribute bound to Python `None`.
* The two workers run the loop bodies to completion with no cancellation
  request (the claims below are about uncancelled sessions); the
  inter-worker queue is the list of records in FIFO order.
-/

namespace Acquisition

/-- One sample vector as returned by `device.read_data()`.  Python truthiness
makes an empty vector falsy, which the acquisition loop treats as
end-of-stream. -/
abbrev Data := List ℚ

/-- `Record(data, sample)` as constructed at `client.py:176-177`.  `record.py`
is not under `src/`; modelled from the spec: a Record is an immutable sample
vector plus a production-time number.  The constructor is called with the
locally incremented sample counter as its second argument, and the consumer
reads that number back as `record.timestamp`, so a single numeric field plays
the role of both the sequence index and the timestamp. -/
structure Record where
  data : Data
  timestamp : ℚ
  deriving DecidableEq, Repr

/-- Truthiness of a `data` value in the loop condition
`while self._acq_process.running() and data` (`client.py:173`): an empty
vector is falsy. -/
def dataTruthy (d : Data) : Bool := !d.isEmpty

/-- Outcome of one `device.read_data()` call: a sample vector, a falsy
end-of-stream value (`None`), or a raised exception. -/
inductive ReadResult where
  | sample (d : Data)
  | eof
  | err
  deriving DecidableEq, Repr

/-- An exception escaping `_acquisition_loop` uncaught. -/
inductive AcqError where
  | deviceError
  deriving DecidableEq, Repr

/-- Body of the `while` loop at `client.py:173-185`, entered holding a truthy
`data` value `d` and the current `sample` counter `n`; `reads` are the
outcomes of the remaining `device.read_data()` calls (an exhausted list means
the device never returns again, i.e. the session's trace ends here).  Each
iteration enqueues `Record(data, sample)` and then reads again inside
`try/except`: a raised exception is swallowed (`data = None; break`), a falsy
result ends the loop via the loop condition. -/
def acqGo (d : Data) (n : ℕ) : List ReadResult → List Record
  | [] => [⟨d, (n : ℚ)⟩]
  | .sample d2 :: rs =>
      ⟨d, (n : ℚ)⟩ :: (if dataTruthy d2 then acqGo d2 (n + 1) rs else [])
  | .eof :: _ => [⟨d, (n : ℚ)⟩]
  | .err :: _ => [⟨d, (n : ℚ)⟩]

/-- `Client._acquisition_loop` (`client.py:160-185`) after
`device.connect()`/`acquisition_init` succeed, run with `_is_streaming` true
and no cancellation.  The FIRST `device.read_data()` call (line 170) is NOT
inside a `try` block: if it raises, the exception escapes the loop function;
if it returns a falsy value the `while` loop is never entered.  Returns the
list of records enqueued, in order. -/
def acquisition_loop : List ReadResult → Except AcqError (List Record)
  | [] => .ok []
  | .err :: _ => .error .deviceError
  | .eof :: _ => .ok []
  | .sample d :: rs => .ok (if dataTruthy d then acqGo d 0 rs else [])

/-- The records the producer enqueues from successive truthy samples
`ds` starting at sample counter `n`: sample counters increase by one per
record. -/
def mkRecords : List Data → ℕ → List Record
  | [], _ => []
  | d :: ds, n => ⟨d, (n : ℚ)⟩ :: mkRecords ds (n + 1)

/-- Consumer-side calibration state: `self._is_calibrated` and `self.offset`
(`client.py:66-68`), initially `false` and `0`. -/
structure CalibState where
  is_calibrated : Bool
  offset : ℚ
  deriving DecidableEq, Repr

/-- Initial calibration state set in `Client.__init__`. -/
def initCalib : CalibState := ⟨false, 0⟩

/-- An exception escaping `_process_loop` (the `except Empty` clause does not
catch either): `IndexError` from `record.data[-1]` on an empty vector, or
`ZeroDivisionError` from `record.timestamp / self._device.fs` when the device
reports a zero sample rate. -/
inductive PError where
  | indexError
  | zeroDivisionError
  deriving DecidableEq, Repr

/-- Observable actions of the consumer loop, in program order: a successful
`self._process_queue.get(...)`, a `self._buf.append(record)`, and a
`p.process(record.data, record.timestamp)`. -/
inductive PEvent where
  | dequeue (r : Record)
  | append (r : Record)
  | process (r : Record)
  deriving DecidableEq, Repr

/-- The calibration check at `client.py:148-151`, performed on each dequeued
record; `fs` is the numeric sample rate `self._device.fs` (a device whose
rate is unset, Python `None`, would raise a `TypeError` at the same division
and is outside this numeric parameter).  If not yet calibrated, inspect
`record.data[-1]`: on an empty vector Python raises `IndexError`; on a
positive value the code first runs `self._is_calibrated = True` and then
`self.offset = record.timestamp / self._device.fs`, so when `fs = 0` the
`ZeroDivisionError` is raised AFTER the calibrated flag was already set and
before `offset` changes.  Returns the resulting state (for an error, the
state at the moment the exception is raised) and the exception if any. -/
def processStep (fs : ℚ) (s : CalibState) (r : Record) : CalibState × Option PError :=
  if s.is_calibrated then (s, none)
  else
    match r.data.getLast? with
    | none => (s, some .indexError)
    | some x =>
      if 0 < x then
        if fs = 0 then ({ s with is_calibrated := true }, some .zeroDivisionError)
        else ({ is_calibrated := true, offset := r.timestamp / fs }, none)
      else (s, none)

/-- `Client._process_loop` (`client.py:133-158`) consuming the FIFO queue
contents `rs` with no cancellation: per iteration, dequeue (an exhausted list
is the `Empty` timeout, which breaks the loop normally), run the calibration
check (whose `IndexError` or `ZeroDivisionError` kills the loop: the record
is dequeued but neither appended nor forwarded, and later records are never
dequeued), then `self._buf.append(record)` and
`p.process(record.data, record.timestamp)`.  Returns the final calibration
state, the event trace, and the escaping exception if any. -/
def process_loop (fs : ℚ) (s : CalibState) :
    List Record → CalibState × List PEvent × Option PError
  | [] => (s, [], none)
  | r :: rs =>
    match processStep fs s r with
    | (s2, some e) => (s2, [.dequeue r], some e)
    | (s2, none) =>
      let rest := process_loop fs s2 rs
      (rest.1, .dequeue r :: .append r :: .process r :: rest.2.1, rest.2.2)

/-- Final calibration state after consuming the whole queue from the initial
state. -/
def runCalib (fs : ℚ) (rs : List Record) : CalibState :=
  (process_loop fs initCalib rs).1

/-- Records successfully dequeued, in trace order. -/
def dequeues (evs : List PEvent) : List Record :=
  evs.filterMap fun e => match e with | .dequeue r => some r | _ => none

/-- Records appended to the Buffer, in trace order. -/
def appends (evs : List PEvent) : List Record :=
  evs.filterMap fun e => match e with | .append r => some r | _ => none

/-- Records forwarded to the Processor's `process`, in trace order. -/
def forwards (evs : List PEvent) : List Record :=
  evs.filterMap fun e => match e with | .process r => some r | _ => none

/-- `record.data[-1] > 0` holds (and is well defined): the calibration
trigger condition. -/
def isTrigger (r : Record) : Bool :=
  match r.data.getLast? with
  | some x => decide (0 < x)
  | none => false

/-- The event trace the consumer produces for a queue it processes without
error: per record, in program order, a dequeue, a Buffer append, and a
Processor forward. -/
def traceOf : List Record → List PEvent
  | [] => []
  | r :: rs => .dequeue r :: .append r :: .process r :: traceOf rs

/-- Device metadata used by the client: the reported sample rate `fs`
(`none` models an unset rate; Python also treats `0` as falsy) and the
channel identifiers.  `connect`/`disconnect`/`read_data` are behaviour, not
data, and appear as events and `ReadResult`s instead. -/
structure Device where
  fs : Option ℚ
  channels : List ℕ
  deriving DecidableEq, Repr

/-- `multiplier = self._device.fs if self._device.fs else 100`
(`client.py:71`): Python truthiness, so an unset or zero rate yields 100 and
any other rate is used as-is. -/
def fsMultiplier (fs : Option ℚ) : ℚ :=
  match fs with
  | some r => if r = 0 then 100 else r
  | none => 100

/-- `maxsize = (self._initial_wait + 1) * multiplier` (`client.py:72`): the
bounded queue's capacity. -/
def queueCapacity (initial_wait : ℚ) (fs : Option ℚ) : ℚ :=
  (initial_wait + 1) * fsMultiplier fs

/-- The capacity formula as the spec words it (§3): ``(initialWaitSeconds +
1) * max(sampleRate, 100)``, "with a floor of 100 for devices that report no
declared rate".  Stated for comparison with `queueCapacity`. -/
def capacitySpec (initial_wait : ℚ) (fs : Option ℚ) : ℚ :=
  (initial_wait + 1) * (match fs with | some r => max r 100 | none => 100)

/-- A `_StoppableProcess` / `_StoppableThread`: only its stop flag matters to
the lifecycle claims. -/
structure WorkerState where
  stopped : Bool
  deriving DecidableEq, Repr

/-- The Buffer sink (external collaborator, `buffer.py` not under `src/`):
its appended records in order, and how many times `close()` has run. -/
structure BufferState where
  records : List Record
  closeCount : ℕ
  deriving DecidableEq, Repr

/-- Modelled from the spec: `buffer.py` is not under `src/`; §6 gives
`query(start, end)` as the archive's time-slice query, returning the records
whose timestamps lie in the requested slice. -/
def BufferState.query (b : BufferState) (tstart : ℚ) (tend : Option ℚ) : List Record :=
  b.records.filter fun r =>
    decide (tstart ≤ r.timestamp) &&
      (match tend with | some e => decide (r.timestamp ≤ e) | none => true)

/-- Calls the client makes on external collaborators during its lifecycle. -/
inductive CEvent where
  | deviceDisconnect
  | bufClose
  deriving DecidableEq, BEq, Repr

/-- Python `AttributeError`: reading an attribute `__init__` never assigned
(or calling a method on `None`). -/
inductive PyError where
  | attributeError
  deriving DecidableEq, Repr

/-- The `Client` object's fields.  `acq_process`, `process_thread`,
`processorMade` and `buf` start as absent attributes (`__init__` does not
assign them); `buf`'s inner `Option` is the Python value (`None` vs a
Buffer), which the `is None` guards in `get_data`/`get_data_len` test.
`acqSpawns`/`procSpawns` count worker constructions, and `events` logs
collaborator calls. -/
structure ClientState where
  device : Device
  is_streaming : Bool
  is_calibrated : Bool
  offset : ℚ
  initial_wait : ℚ
  queueMaxsize : ℚ
  queue : List Record
  acq_process : Option WorkerState
  process_thread : Option WorkerState
  buf : Option (Option BufferState)
  processorMade : Bool
  acqSpawns : ℕ
  procSpawns : ℕ
  events : List CEvent
  deriving DecidableEq, Repr

/-- `Client.__init__` (`client.py:54-74`): streaming and calibration flags
false, offset 0, `_initial_wait = 2`, queue constructed with
`maxsize = (initial_wait + 1) * multiplier`.  Note that `_buf`,
`_acq_process` and `_process_thread` are NOT assigned here. -/
def Client.init (d : Device) : ClientState :=
  { device := d
    is_streaming := false
    is_calibrated := false
    offset := 0
    initial_wait := 2
    queueMaxsize := queueCapacity 2 d.fs
    queue := []
    acq_process := none
    process_thread := none
    buf := none
    processorMade := false
    acqSpawns := 0
    procSpawns := 0
    events := [] }

/-- `Client.start_acquisition` (`client.py:85-131`): guarded by
`if not self._is_streaming`; when idle it sets the flag, spawns the
acquisition worker, constructs the Buffer and the Processor, and spawns the
processing thread.  When already streaming it does nothing at all. -/
def start_acquisition (s : ClientState) : ClientState :=
  if s.is_streaming then s
  else
    { s with
      is_streaming := true
      acq_process := some ⟨false⟩
      acqSpawns := s.acqSpawns + 1
      buf := some (some ⟨[], 0⟩)
      processorMade := true
      process_thread := some ⟨false⟩
      procSpawns := s.procSpawns + 1 }

/-- `Client.stop_acquisition` (`client.py:187-207`): unconditionally clears
the streaming flag and calls `device.disconnect()`, then touches
`self._acq_process`, `self._process_thread` and `self._buf` — an
`AttributeError` if any of them was never assigned (as before any
`start_acquisition`).  Otherwise it stops and joins both workers, runs the
bounded drain wait, and calls `self._buf.close()`. -/
def stop_acquisition (s : ClientState) : Except PyError ClientState :=
  let s1 := { s with
              is_streaming := false
              events := s.events ++ [CEvent.deviceDisconnect] }
  match s1.acq_process, s1.process_thread, s1.buf with
  | some _, some _, some (some b) =>
    .ok { s1 with
          acq_process := some ⟨true⟩
          process_thread := some ⟨true⟩
          buf := some (some { b with closeCount := b.closeCount + 1 })
          events := s1.events ++ [CEvent.bufClose] }
  | _, _, _ => .error .attributeError

/-- `Client.get_data` (`client.py:209-228`): reads `self._buf` (an
`AttributeError` before any `start_acquisition`), returns `[]` when it is
`None`, otherwise `all()` or the range query. -/
def get_data (s : ClientState) (tstart tend : Option ℚ) : Except PyError (List Record) :=
  match s.buf with
  | none => .error .attributeError
  | some none => .ok []
  | some (some b) =>
    match tstart with
    | none => .ok b.records
    | some a => .ok (b.query a tend)

/-- `Client.get_data_len` (`client.py:230-235`): reads `self._buf` (an
`AttributeError` before any `start_acquisition`), returns `0` when it is
`None`, otherwise `len(self._buf)`. -/
def get_data_len (s : ClientState) : Except PyError ℕ :=
  match s.buf with
  | none => .error .attributeError
  | some none => .ok 0
  | some (some b) => .ok b.records.length

/-! ### Helper lemmas -/

/-- A nonempty sample vector is truthy. -/
theorem dataTruthy_of_ne_nil {d : Data} (h : d ≠ []) : dataTruthy d = true := by
  cases d with
  | nil => exact absurd rfl h
  | cons x xs => rfl

/-- Running the acquisition loop body over a stream of truthy samples
enqueues one record per sample with consecutive sample counters. -/
theorem acqGo_map_sample (ds : List Data) : ∀ (d : Data) (n : ℕ),
    (∀ x ∈ ds, x ≠ []) →
    acqGo d n (ds.map ReadResult.sample) = mkRecords (d :: ds) n := by
  induction ds with
  | nil => intro d n _; rfl
  | cons d2 ds ih =>
    intro d n h
    have ht : dataTruthy d2 = true := dataTruthy_of_ne_nil (h d2 (by simp))
    have := ih d2 (n + 1) (fun x hx => h x (by simp [hx]))
    simp [acqGo, ht, mkRecords, this]

/-- With no induced error and `N` truthy samples, the producer enqueues
exactly the records `mkRecords ds 0`. -/
theorem acquisition_loop_map_sample (ds : List Data) (h : ∀ x ∈ ds, x ≠ []) :
    acquisition_loop (ds.map ReadResult.sample) = .ok (mkRecords ds 0) := by
  cases ds with
  | nil => rfl
  | cons d ds =>
    have ht : dataTruthy d = true := dataTruthy_of_ne_nil (h d (by simp))
    have := acqGo_map_sample ds d 0 (fun x hx => h x (by simp [hx]))
    simp [acquisition_loop, ht, this]

/-- The numbers stored in `mkRecords ds n` are `n, n+1, …, n+|ds|-1`. -/
theorem mkRecords_timestamps (ds : List Data) : ∀ n : ℕ,
    (mkRecords ds n).map Record.timestamp
      = (List.range ds.length).map (fun i => ((n + i : ℕ) : ℚ)) := by
  induction ds with
  | nil => intro n; rfl
  | cons d ds ih =>
    intro n
    simp only [mkRecords, List.map, List.length_cons, List.range_succ_eq_map,
      ih (n + 1), List.map_map, List.cons.injEq]
    refine ⟨by norm_num, List.map_congr_left fun i _ => ?_⟩
    have h1 : n + 1 + i = n + (i + 1) := by omega
    simp [Function.comp, h1]

/-- Every record built by `mkRecords` carries one of the given vectors. -/
theorem mkRecords_mem_data (ds : List Data) : ∀ (n : ℕ) (r : Record),
    r ∈ mkRecords ds n → r.data ∈ ds := by
  induction ds with
  | nil => intro n r hr; simp [mkRecords] at hr
  | cons d ds ih =>
    intro n r hr
    simp only [mkRecords, List.mem_cons] at hr
    rcases hr with rfl | hr
    · simp
    · exact List.mem_cons_of_mem _ (ih (n + 1) r hr)

/-- The loop body only ever enqueues the truthy vector it currently holds:
every enqueued record has a nonempty sample vector. -/
theorem acqGo_data_ne_nil : ∀ (rs : List ReadResult) (d : Data) (n : ℕ),
    dataTruthy d = true → ∀ r ∈ acqGo d n rs, r.data ≠ [] := by
  intro rs
  induction rs with
  | nil =>
    intro d n hd r hr
    simp only [acqGo, List.mem_singleton] at hr
    subst hr
    simpa [dataTruthy, List.isEmpty_iff] using hd
  | cons x rs ih =>
    intro d n hd r hr
    have hdne : d ≠ [] := by simpa [dataTruthy, List.isEmpty_iff] using hd
    cases x with
    | sample d2 =>
      simp only [acqGo, List.mem_cons] at hr
      rcases hr with rfl | hr
      · exact hdne
      · by_cases ht : dataTruthy d2 = true
        · exact ih d2 (n + 1) ht r (by simpa [ht] using hr)
        · simp [ht] at hr
    | eof =>
      simp only [acqGo, List.mem_singleton] at hr
      subst hr; exact hdne
    | err =>
      simp only [acqGo, List.mem_singleton] at hr
      subst hr; exact hdne

/-- Producer invariant: any record the acquisition loop enqueues has a
nonempty sample vector (empty vectors are falsy and end the loop instead). -/
theorem acquisition_loop_data_ne_nil (reads : List ReadResult) (recs : List Record)
    (h : acquisition_loop reads = .ok recs) : ∀ r ∈ recs, r.data ≠ [] := by
  cases reads with
  | nil => cases h; simp
  | cons x reads =>
    cases x with
    | sample d =>
      by_cases ht : dataTruthy d = true
      · simp only [acquisition_loop, ht, if_pos] at h
        cases h
        exact acqGo_data_ne_nil reads d 0 ht
      · simp only [acquisition_loop, ht] at h
        cases h
        simp
    | eof => cases h; simp
    | err => cases h

/-- An already-calibrated consumer skips the trigger check entirely. -/
theorem processStep_calibrated (fs off : ℚ) (r : Record) :
    processStep fs ⟨true, off⟩ r = (⟨true, off⟩, none) := rfl

/-- On a record with a nonempty vector and a nonzero sample rate the
calibration check cannot raise. -/
theorem processStep_ne_nil (fs : ℚ) (s : CalibState) (r : Record)
    (h : r.data ≠ []) (hfs : fs ≠ 0) : ∃ s2, processStep fs s r = (s2, none) := by
  unfold processStep
  cases hc : s.is_calibrated with
  | true => exact ⟨s, rfl⟩
  | false =>
    cases hl : r.data.getLast? with
    | none => exact absurd (by simpa using hl) h
    | some x =>
      by_cases hx : 0 < x
      · exact ⟨⟨true, r.timestamp / fs⟩, by simp [hl, hx, hfs]⟩
      · exact ⟨s, by simp [hl, hx]⟩

/-- A non-trigger record leaves the calibration state unchanged (whether or
not the check raises on it), at any sample rate: the division never runs. -/
theorem processStep_nontrigger (fs : ℚ) (s : CalibState) (r : Record)
    (h : isTrigger r = false) (hne : r.data ≠ []) :
    processStep fs s r = (s, none) := by
  unfold processStep
  cases hc : s.is_calibrated with
  | true => rfl
  | false =>
    cases hl : r.data.getLast? with
    | none => exact absurd (by simpa using hl) hne
    | some x =>
      have hx : ¬ 0 < x := by simpa [isTrigger, hl] using h
      simp [hx]

/-- At a nonzero sample rate a trigger record flips an uncalibrated consumer
to calibrated and sets the offset to `timestamp / fs`. -/
theorem processStep_trigger (fs : ℚ) (r : Record) (h : isTrigger r = true)
    (hfs : fs ≠ 0) :
    processStep fs initCalib r = (⟨true, r.timestamp / fs⟩, none) := by
  unfold processStep initCalib
  cases hl : r.data.getLast? with
  | none => simp [isTrigger, hl] at h
  | some x =>
    have hx : 0 < x := by simpa [isTrigger, hl] using h
    simp [hx, hfs]

/-- At a zero sample rate a trigger record raises `ZeroDivisionError` after
the calibrated flag was set but before `offset` changes, and the consumer
loop dies with the record dequeued but neither appended nor forwarded. -/
theorem process_loop_zero_fs_trigger (t : Record) (rs : List Record)
    (h : isTrigger t = true) :
    process_loop 0 initCalib (t :: rs)
      = (⟨true, 0⟩, [PEvent.dequeue t], some PError.zeroDivisionError) := by
  have hstep : processStep 0 initCalib t
      = (⟨true, 0⟩, some PError.zeroDivisionError) := by
    unfold processStep initCalib
    cases hl : t.data.getLast? with
    | none => simp [isTrigger, hl] at h
    | some x =>
      have hx : 0 < x := by simpa [isTrigger, hl] using h
      simp [hx]
  simp [process_loop, hstep]

/-- Once calibrated, the consumer processes any queue without error, with
the full per-record trace, and never changes the calibration state again. -/
theorem process_loop_calibrated (fs off : ℚ) : ∀ rs : List Record,
    process_loop fs ⟨true, off⟩ rs = (⟨true, off⟩, traceOf rs, none) := by
  intro rs
  induction rs with
  | nil => rfl
  | cons r rs ih => simp [process_loop, processStep_calibrated, ih, traceOf]

/-- On a queue of nonempty-vector records, at a nonzero sample rate, the
consumer loop finishes without error and its trace is exactly one
dequeue/append/forward per record, in order. -/
theorem process_loop_trace (fs : ℚ) (hfs : fs ≠ 0) :
    ∀ (rs : List Record) (s : CalibState),
    (∀ r ∈ rs, r.data ≠ []) →
    (process_loop fs s rs).2.1 = traceOf rs ∧ (process_loop fs s rs).2.2 = none := by
  intro rs
  induction rs with
  | nil => intro s _; exact ⟨rfl, rfl⟩
  | cons r rs ih =>
    intro s h
    obtain ⟨s2, hs2⟩ := processStep_ne_nil fs s r (h r (by simp)) hfs
    have := ih s2 (fun x hx => h x (by simp [hx]))
    simp [process_loop, hs2, traceOf, this.1, this.2]

/-- The dequeue projection of a clean trace recovers the queue. -/
theorem dequeues_traceOf : ∀ rs : List Record, dequeues (traceOf rs) = rs := by
  intro rs
  induction rs with
  | nil => rfl
  | cons r rs ih => simp [traceOf, dequeues, List.filterMap] at ih ⊢; exact ih

/-- The append projection of a clean trace recovers the queue. -/
theorem appends_traceOf : ∀ rs : List Record, appends (traceOf rs) = rs := by
  intro rs
  induction rs with
  | nil => rfl
  | cons r rs ih => simp [traceOf, appends, List.filterMap] at ih ⊢; exact ih

/-- The forward projection of a clean trace recovers the queue. -/
theorem forwards_traceOf : ∀ rs : List Record, forwards (traceOf rs) = rs := by
  intro rs
  induction rs with
  | nil => rfl
  | cons r rs ih => simp [traceOf, forwards, List.filterMap] at ih ⊢; exact ih

/-- With no trigger in the queue the calibration state never moves. -/
theorem runCalib_no_trigger (fs : ℚ) : ∀ rs : List Record,
    (∀ r ∈ rs, isTrigger r = false) → runCalib fs rs = initCalib := by
  intro rs
  induction rs with
  | nil => intro _; rfl
  | cons r rs ih =>
    intro h
    unfold runCalib process_loop
    by_cases hne : r.data = []
    · have hst : processStep fs initCalib r = (initCalib, some PError.indexError) := by
        simp [processStep, initCalib, hne]
      simp [hst]
    · have hstep := processStep_nontrigger fs initCalib r (h r (by simp)) hne
      have := ih (fun x hx => h x (by simp [hx]))
      simp only [hstep]
      exact this

/-- Processing a queue whose prefix holds only nonempty non-trigger records
and then a trigger record calibrates exactly at the trigger, with offset
`t.timestamp / fs`, and the state never changes afterwards (nonzero sample
rate). -/
theorem runCalib_first_trigger (fs : ℚ) (hfs : fs ≠ 0) :
    ∀ (pre : List Record) (t : Record) (post : List Record),
    (∀ r ∈ pre, r.data ≠ [] ∧ isTrigger r = false) → isTrigger t = true →
    runCalib fs (pre ++ t :: post) = ⟨true, t.timestamp / fs⟩ := by
  intro pre
  induction pre with
  | nil =>
    intro t post _ ht
    simp [runCalib, process_loop, processStep_trigger fs t ht hfs,
      process_loop_calibrated]
  | cons r pre ih =>
    intro t post hpre ht
    have hr := hpre r (by simp)
    have hstep := processStep_nontrigger fs initCalib r hr.2 hr.1
    have ihp := ih t post (fun x hx => hpre x (by simp [hx])) ht
    unfold runCalib at ihp ⊢
    simp only [List.cons_append, process_loop, hstep]
    exact ihp

/-! ### Claims -/

/-- Claim C1: with no induced error (samples are genuine nonempty vectors,
and the device reports a nonzero sample rate, so neither the `IndexError` nor
the `ZeroDivisionError` of the calibration check fires), for every sequence
of `N` samples the producer enqueues exactly `N` records whose sequence
numbers are exactly `0, 1, …, N-1` in order, and the consumer dequeues
exactly those `N` records in the same order, with no loss, duplication or
reordering and no error. -/
theorem c1_acquisition_fifo (ds : List Data) (fs : ℚ) (hfs : fs ≠ 0)
    (h : ∀ d ∈ ds, d ≠ []) :
    acquisition_loop (ds.map ReadResult.sample) = .ok (mkRecords ds 0) ∧
    (mkRecords ds 0).map Record.timestamp
      = (List.range ds.length).map (fun i : ℕ => (i : ℚ)) ∧
    dequeues (process_loop fs initCalib (mkRecords ds 0)).2.1 = mkRecords ds 0 ∧
    (process_loop fs initCalib (mkRecords ds 0)).2.2 = none := by
  have hne : ∀ r ∈ mkRecords ds 0, r.data ≠ [] := fun r hr =>
    h r.data (mkRecords_mem_data ds 0 r hr)
  have htr := process_loop_trace fs hfs (mkRecords ds 0) initCalib hne
  refine ⟨acquisition_loop_map_sample ds h, ?_, ?_, htr.2⟩
  · rw [mkRecords_timestamps ds 0]
    simp only [Nat.zero_add]
  · rw [htr.1, dequeues_traceOf]

/-- Witness for C1: a concrete two-sample error-free session. -/
theorem c1_acquisition_fifo_witness :
    acquisition_loop (([[1], [2, 3]] : List Data).map ReadResult.sample)
      = .ok (mkRecords ([[1], [2, 3]] : List Data) 0) ∧
    (mkRecords ([[1], [2, 3]] : List Data) 0).map Record.timestamp
      = (List.range ([[1], [2, 3]] : List Data).length).map (fun i : ℕ => (i : ℚ)) ∧
    dequeues (process_loop 300 initCalib (mkRecords ([[1], [2, 3]] : List Data) 0)).2.1
      = mkRecords ([[1], [2, 3]] : List Data) 0 ∧
    (process_loop 300 initCalib (mkRecords ([[1], [2, 3]] : List Data) 0)).2.2 = none :=
  c1_acquisition_fifo [[1], [2, 3]] 300 (by norm_num) (by decide)

/-- Claim C2: `is_calibrated` flips at most once, from false to true, exactly
at the first dequeued record whose last data element is positive, setting
`offset = record.timestamp / device.fs`; both stay unchanged for every later
record (trigger-like or not); with no trigger record at all the state stays
`⟨false, 0⟩`. -/
theorem c2_calibration_once (fs : ℚ) (rs pre post : List Record) (t : Record)
    (hfs : fs ≠ 0) :
    ((∀ r ∈ rs, isTrigger r = false) → runCalib fs rs = initCalib) ∧
    ((∀ r ∈ pre, r.data ≠ [] ∧ isTrigger r = false) → isTrigger t = true →
      runCalib fs (pre ++ t :: post)
        = { is_calibrated := true, offset := t.timestamp / fs }) :=
  ⟨runCalib_no_trigger fs rs,
    fun hpre ht => runCalib_first_trigger fs hfs pre t post hpre ht⟩

/-- Witness for C2: the trigger fires on the second record only; a later
trigger-like record does not move the state. -/
theorem c2_calibration_once_witness :
    runCalib 300 [⟨[0], 0⟩] = initCalib ∧
    runCalib 300 (([⟨[0], 0⟩] : List Record) ++ ⟨[0, 5], 1⟩ :: [⟨[9], 2⟩])
      = { is_calibrated := true, offset := (1 : ℚ) / 300 } := by
  have h := c2_calibration_once 300 [⟨[0], 0⟩] [⟨[0], 0⟩] [⟨[9], 2⟩] ⟨[0, 5], 1⟩
    (by norm_num)
  exact ⟨h.1 (by decide), by rw [h.2 (by decide) (by decide)]⟩

/-- Claim C4 (code behaviour at the failing input): before any
`start_acquisition`, `__init__` has never assigned `self._buf`, so both
`get_data()` and `get_data_len()` raise `AttributeError` instead of
returning `[]` / `0` (the `is None` guards are unreachable in this state). -/
theorem c4_get_data_before_start (d : Device) :
    get_data (Client.init d) none none = .error PyError.attributeError ∧
    get_data_len (Client.init d) = .error PyError.attributeError :=
  ⟨rfl, rfl⟩

/-- Claim C5 counterexample: a device reporting a 50 Hz sample rate gets a
queue of capacity `(2+1)*50 = 150`, not the claimed
`(2+1)*max(50, 100) = 300`. -/
theorem c5_capacity_counterexample :
    (Client.init { fs := some 50, channels := [] }).queueMaxsize = 150 ∧
    capacitySpec 2 (some 50) = 300 ∧
    (Client.init { fs := some 50, channels := [] }).queueMaxsize
      ≠ capacitySpec 2 (some 50) := by
  refine ⟨?_, ?_, ?_⟩ <;>
    norm_num [Client.init, queueCapacity, fsMultiplier, capacitySpec]

/-- Claim C5 as amended: the queue capacity is
`(initial_wait + 1) * sampleRate` whenever the device reports a nonzero
rate, and `(initial_wait + 1) * 100` when the rate is unset or zero; the
client constructs its queue with exactly this capacity. -/
theorem c5_capacity_amended (iw r : ℚ) (d : Device) (hr : r ≠ 0) :
    queueCapacity iw none = (iw + 1) * 100 ∧
    queueCapacity iw (some 0) = (iw + 1) * 100 ∧
    queueCapacity iw (some r) = (iw + 1) * r ∧
    (Client.init d).queueMaxsize = queueCapacity 2 d.fs :=
  ⟨rfl, by simp [queueCapacity, fsMultiplier],
    by simp [queueCapacity, fsMultiplier, hr], rfl⟩

/-- Witness for the amended C5 at a 50 Hz device. -/
theorem c5_capacity_amended_witness :
    queueCapacity 2 none = (2 + 1) * 100 ∧
    queueCapacity 2 (some 0) = (2 + 1) * 100 ∧
    queueCapacity 2 (some 50) = (2 + 1) * 50 ∧
    (Client.init { fs := some 50, channels := [] }).queueMaxsize
      = queueCapacity 2 (Device.mk (some 50) []).fs :=
  c5_capacity_amended 2 50 { fs := some 50, channels := [] } (by norm_num)

/-- Claim C6 counterexample: when the FIRST `device.read_data()` call raises,
the exception escapes `_acquisition_loop` uncaught (line 170 sits outside the
`try` block), so the producer does not terminate as a clean stop. -/
theorem c6_first_read_counterexample :
    acquisition_loop [ReadResult.err] = .error AcqError.deviceError := rfl

/-- Claim C6 as amended: if the first read returns end-of-stream, nothing is
enqueued and the producer stops cleanly; if the first read raises, nothing is
enqueued but the error escapes the loop; only errors on the second and later
reads are suppressed as clean stops. -/
theorem c6_first_read_amended (rs : List ReadResult) (d : Data) (hd : d ≠ []) :
    acquisition_loop (ReadResult.eof :: rs) = .ok [] ∧
    acquisition_loop (ReadResult.err :: rs) = .error AcqError.deviceError ∧
    acquisition_loop (ReadResult.sample d :: ReadResult.err :: rs)
      = .ok [⟨d, 0⟩] := by
  refine ⟨rfl, rfl, ?_⟩
  simp [acquisition_loop, dataTruthy_of_ne_nil hd, acqGo]

/-- Witness for the amended C6. -/
theorem c6_first_read_amended_witness :
    acquisition_loop [ReadResult.eof] = .ok [] ∧
    acquisition_loop [ReadResult.err] = .error AcqError.deviceError ∧
    acquisition_loop [ReadResult.sample [1], ReadResult.err]
      = .ok [⟨[1], 0⟩] :=
  c6_first_read_amended [] [1] (by decide)

/-- Claim C7: `start_acquisition` is a no-op while streaming — a second call
without an intervening stop changes nothing and spawns no additional
workers. -/
theorem c7_start_idempotent (s : ClientState) :
    (s.is_streaming = true → start_acquisition s = s) ∧
    start_acquisition (start_acquisition s) = start_acquisition s ∧
    (start_acquisition (start_acquisition s)).acqSpawns
      = (start_acquisition s).acqSpawns ∧
    (start_acquisition (start_acquisition s)).procSpawns
      = (start_acquisition s).procSpawns := by
  have hidem : ∀ t : ClientState, t.is_streaming = true → start_acquisition t = t := by
    intro t ht
    simp [start_acquisition, ht]
  have hstream : (start_acquisition s).is_streaming = true := by
    by_cases hs : s.is_streaming = true
    · simpa [start_acquisition, hs] using hs
    · simp [start_acquisition, hs]
  refine ⟨hidem s, hidem _ hstream, ?_, ?_⟩ <;> rw [hidem _ hstream]

/-- Witness for C7: starting twice from a fresh client equals starting
once. -/
theorem c7_start_idempotent_witness :
    start_acquisition (start_acquisition (Client.init { fs := some 300, channels := [1] }))
      = start_acquisition (Client.init { fs := some 300, channels := [1] }) :=
  (c7_start_idempotent
    (start_acquisition (Client.init { fs := some 300, channels := [1] }))).1
    (by decide)

/-- Claim C8: every record the producer can enqueue has a nonempty vector,
and on such queues, at a nonzero sample rate (at `fs = 0` a trigger record
would die in the calibration check and be dropped, see
`process_loop_zero_fs_trigger`), the consumer's trace is exactly
dequeue–append–forward per record in order: each dequeued record is appended
to the Buffer before being forwarded to the Processor, and none is
dropped. -/
theorem c8_persist_then_forward (fs : ℚ) (s : CalibState) (rs : List Record)
    (reads : List ReadResult) (recs : List Record)
    (hfs : fs ≠ 0) (h : ∀ r ∈ rs, r.data ≠ []) :
    (acquisition_loop reads = .ok recs → ∀ r ∈ recs, r.data ≠ []) ∧
    (process_loop fs s rs).2.1 = traceOf rs ∧
    appends (process_loop fs s rs).2.1 = rs ∧
    forwards (process_loop fs s rs).2.1 = rs ∧
    (process_loop fs s rs).2.2 = none := by
  have htr := process_loop_trace fs hfs rs s h
  exact ⟨fun hok => acquisition_loop_data_ne_nil reads recs hok, htr.1,
    by rw [htr.1, appends_traceOf], by rw [htr.1, forwards_traceOf], htr.2⟩

/-- Witness for C8 at a concrete two-record queue. -/
theorem c8_persist_then_forward_witness :
    (acquisition_loop [ReadResult.sample [1]] = .ok ([⟨[1], 0⟩] : List Record) →
      ∀ r ∈ ([⟨[1], 0⟩] : List Record), r.data ≠ []) ∧
    (process_loop 300 initCalib ([⟨[1], 0⟩, ⟨[-2, 0], 1⟩] : List Record)).2.1
      = traceOf ([⟨[1], 0⟩, ⟨[-2, 0], 1⟩] : List Record) ∧
    appends (process_loop 300 initCalib ([⟨[1], 0⟩, ⟨[-2, 0], 1⟩] : List Record)).2.1
      = ([⟨[1], 0⟩, ⟨[-2, 0], 1⟩] : List Record) ∧
    forwards (process_loop 300 initCalib ([⟨[1], 0⟩, ⟨[-2, 0], 1⟩] : List Record)).2.1
      = ([⟨[1], 0⟩, ⟨[-2, 0], 1⟩] : List Record) ∧
    (process_loop 300 initCalib ([⟨[1], 0⟩, ⟨[-2, 0], 1⟩] : List Record)).2.2 = none :=
  c8_persist_then_forward 300 initCalib [⟨[1], 0⟩, ⟨[-2, 0], 1⟩]
    [ReadResult.sample [1]] [⟨[1], 0⟩] (by norm_num) (by decide)

/-- Claim C9: `stop_acquisition` is not guarded by the streaming flag:
before any start it raises `AttributeError` (the worker and buffer
attributes were never assigned) instead of being a no-op, and a second stop
runs `device.disconnect()` and `Buffer.close()` again. -/
theorem c9_stop_unguarded (d : Device) :
    stop_acquisition (Client.init d) = .error PyError.attributeError ∧
    (∃ s2, stop_acquisition (start_acquisition (Client.init d)) = .ok s2 ∧
      s2.events = [CEvent.deviceDisconnect, CEvent.bufClose] ∧
      ∃ s3, stop_acquisition s2 = .ok s3 ∧
        s3.events = [CEvent.deviceDisconnect, CEvent.bufClose,
          CEvent.deviceDisconnect, CEvent.bufClose] ∧
        s3.buf = some (some { records := [], closeCount := 2 })) :=
  ⟨rfl, ⟨_, rfl, rfl, ⟨_, rfl, rfl, rfl⟩⟩⟩

/-- Claim C10: while uncalibrated the check indexes `record.data[-1]`, so a
dequeued record with an empty vector raises `IndexError` and kills the loop
(the record is dequeued but nothing further happens); with every record
carrying a nonempty vector — and a nonzero sample rate, since at `fs = 0` a
trigger record raises `ZeroDivisionError` instead — the loop never errors. -/
theorem c10_empty_data_crash (fs : ℚ) (s : CalibState) (r : Record)
    (rs qs : List Record) (h1 : s.is_calibrated = false) (h2 : r.data = []) :
    (process_loop fs s (r :: rs)).2.2 = some PError.indexError ∧
    (process_loop fs s (r :: rs)).2.1 = [PEvent.dequeue r] ∧
    (fs ≠ 0 → (∀ x ∈ qs, x.data ≠ []) →
      (process_loop fs initCalib qs).2.2 = none) := by
  have hstep : processStep fs s r = (s, some PError.indexError) := by
    simp [processStep, h1, h2]
  exact ⟨by simp [process_loop, hstep], by simp [process_loop, hstep],
    fun hfs hq => (process_loop_trace fs hfs qs initCalib hq).2⟩

/-- Witness for C10: an empty-vector record crashes the uncalibrated loop;
a nonempty queue at a 300 Hz rate runs clean. -/
theorem c10_empty_data_crash_witness :
    (process_loop 300 initCalib (⟨[], 0⟩ :: ([⟨[1], 1⟩] : List Record))).2.2
      = some PError.indexError ∧
    (process_loop 300 initCalib (⟨[], 0⟩ :: ([⟨[1], 1⟩] : List Record))).2.1
      = [PEvent.dequeue ⟨[], 0⟩] ∧
    (process_loop 300 initCalib ([⟨[2], 0⟩] : List Record)).2.2 = none := by
  have h := c10_empty_data_crash 300 initCalib ⟨[], 0⟩ [⟨[1], 1⟩] [⟨[2], 0⟩] rfl rfl
  exact ⟨h.1, h.2.1, h.2.2 (by norm_num) (by decide)⟩

end Acquisition
